import Mathlib

/-!
Verification of the `glyph` ml-suggestions service
(`src/services/ml-suggestions/src/ml_suggestions/handlers/ner_suggestions.py`
and `main.py`), a stub HTTP service with three handlers: NER suggestions,
annotation quality prediction, and active-learning task selection.

The embedding below mirrors the pydantic models and handler bodies.  Python
floats that only ever hold exact decimal constants and are compared by order
are modelled as rationals (`ℚ`); Python ints as `Int`.  Pydantic `Field`
bounds (`ge`/`le`) and the `Literal` strategy type are modelled by explicit
validation functions from raw field values to `Option` of the validated
request model: pydantic rejects a request whose fields violate the bounds
before the handler runs, which corresponds to the validator returning `none`.
-/

/-- A JSON-like value, modelling a Python `dict` payload
(`QualityPredictionRequest.annotation_data`). -/
inductive Json where
  | null : Json
  | bool (b : Bool) : Json
  | num (q : ℚ) : Json
  | str (s : String) : Json
  | arr (elems : List Json) : Json
  | obj (fields : List (String × Json)) : Json

/-- `Entity` model from `ner_suggestions.py` (lines 12-20): a suggested
entity with an id, type label, half-open character span and confidence.
The `id` default factory (a random uuid) is modelled as a plain field,
since no handler in the source ever constructs an `Entity`. -/
structure Entity where
  id : String
  type : String
  start : Int
  «end» : Int
  text : String
  confidence : ℚ
deriving DecidableEq

/-- `NERSuggestionRequest` model (lines 23-30), after pydantic validation. -/
structure NERSuggestionRequest where
  text : String
  entity_types : List String
  model : String
  max_suggestions : Int
  min_confidence : ℚ
deriving DecidableEq

/-- Pydantic validation of `NERSuggestionRequest`: `max_suggestions` carries
`Field(ge=1, le=100)` and `min_confidence` carries `Field(ge=0.0, le=1.0)`;
a request violating a bound is rejected (`none`), otherwise the field values
are taken as given, unchanged. -/
def NERSuggestionRequest.validate (text : String) (entity_types : List String)
    (model : String) (max_suggestions : Int) (min_confidence : ℚ) :
    Option NERSuggestionRequest :=
  if 1 ≤ max_suggestions ∧ max_suggestions ≤ 100 ∧
      0 ≤ min_confidence ∧ min_confidence ≤ 1 then
    some ⟨text, entity_types, model, max_suggestions, min_confidence⟩
  else
    none

/-- `NERSuggestionResponse` model (lines 33-38). -/
structure NERSuggestionResponse where
  suggestions : List Entity
  model : String
  processing_time_ms : ℚ
deriving DecidableEq

/-- Handler `get_ner_suggestions` (lines 41-57): the placeholder returns
empty suggestions, echoes the request model name and reports 0.0 ms. -/
def get_ner_suggestions (request : NERSuggestionRequest) : NERSuggestionResponse :=
  { suggestions := []
    model := request.model
    processing_time_ms := 0 }

/-- `QualityPredictionRequest` model (lines 60-65): `annotation_data` is an
arbitrary dict. -/
structure QualityPredictionRequest where
  annotation_data : Json
  user_id : String
  task_type : String

/-- `QualityPredictionResponse` model (lines 68-73). -/
structure QualityPredictionResponse where
  predicted_quality : ℚ
  confidence : ℚ
  risk_factors : List String
deriving DecidableEq

/-- Handler `predict_quality` (lines 76-87): the placeholder returns the
fixed values `predicted_quality=0.85`, `confidence=0.7`, `risk_factors=[]`. -/
def predict_quality (_request : QualityPredictionRequest) : QualityPredictionResponse :=
  { predicted_quality := 85 / 100
    confidence := 7 / 10
    risk_factors := [] }

/-- The `Literal["uncertainty", "diversity", "hybrid"]` strategy type of
`ActiveLearningRequest` (line 95). -/
inductive Strategy where
  | uncertainty : Strategy
  | diversity : Strategy
  | hybrid : Strategy
deriving DecidableEq

/-- Parsing of the `strategy` field: pydantic accepts exactly the three
literal strings. -/
def Strategy.ofString : String → Option Strategy
  | "uncertainty" => some .uncertainty
  | "diversity" => some .diversity
  | "hybrid" => some .hybrid
  | _ => none

/-- Serialization of a strategy back to its literal string. -/
def Strategy.toString : Strategy → String
  | .uncertainty => "uncertainty"
  | .diversity => "diversity"
  | .hybrid => "hybrid"

/-- `ActiveLearningRequest` model (lines 90-96), after pydantic validation. -/
structure ActiveLearningRequest where
  project_id : String
  user_id : String
  strategy : Strategy
  count : Int
deriving DecidableEq

/-- Pydantic validation of `ActiveLearningRequest`: `strategy` must be one of
the three literals and `count` carries `Field(ge=1, le=100)`; a violating
request is rejected (`none`), otherwise field values pass through unchanged. -/
def ActiveLearningRequest.validate (project_id user_id : String)
    (strategy : String) (count : Int) : Option ActiveLearningRequest :=
  match Strategy.ofString strategy with
  | none => none
  | some s =>
    if 1 ≤ count ∧ count ≤ 100 then
      some ⟨project_id, user_id, s, count⟩
    else
      none

/-- `ActiveLearningResponse` model (lines 99-104): `selection_scores` is a
dict from task id to score. -/
structure ActiveLearningResponse where
  task_ids : List String
  strategy_used : String
  selection_scores : List (String × ℚ)
deriving DecidableEq

/-- Handler `select_tasks_for_annotation` (lines 107-120): the placeholder
returns an empty task list, echoes the strategy and empty scores. -/
def select_tasks_for_annotation (request : ActiveLearningRequest) :
    ActiveLearningResponse :=
  { task_ids := []
    strategy_used := request.strategy.toString
    selection_scores := [] }

/-- The Span invariant of the spec, as a decidable check of an `Entity`
against the request text: `0 <= start < end <= len(text)` and the entity
`text` equals the substring `text[start:end]` (Python slice over character
offsets). -/
def spanInvariant (text : String) (e : Entity) : Bool :=
  decide (0 ≤ e.start) && decide (e.start < e.«end») &&
    decide (e.«end» ≤ (text.length : Int)) &&
    decide (e.text =
      String.mk ((text.toList.drop e.start.toNat).take (e.«end» - e.start).toNat))

/-- C2: for every valid request the three handlers return fixed placeholder
values: the NER handler returns an empty suggestions list, the quality
handler returns `predicted_quality` exactly 0.85, and the active-learning
handler returns an empty `task_ids` list. -/
theorem handlers_return_placeholders :
    (∀ r : NERSuggestionRequest, (get_ner_suggestions r).suggestions = []) ∧
    (∀ r : QualityPredictionRequest,
      (predict_quality r).predicted_quality = (0.85 : ℚ)) ∧
    (∀ r : ActiveLearningRequest, ( select_tasks_for_annotation r).task_ids = []) :=
  ⟨fun _ => rfl, fun _ => by norm_num [predict_quality], fun _ => rfl⟩

/-- C3: for every valid NER scoring input, the returned sequence has length
at most `max_suggestions`, and every returned entity has
`confidence >= min_confidence` and a type among `entity_types`. -/
theorem ner_output_respects_bounds (r : NERSuggestionRequest)
    (h : 1 ≤ r.max_suggestions) :
    ((get_ner_suggestions r).suggestions.length : Int) ≤ r.max_suggestions ∧
    (get_ner_suggestions r).suggestions.all
      (fun e => decide (r.min_confidence ≤ e.confidence) &&
        r.entity_types.contains e.type) = true := by
  constructor
  · simp only [get_ner_suggestions, List.length_nil, Nat.cast_zero]
    omega
  · rfl

/-- Concrete NER request used as a witness input. -/
def nerReq₀ : NERSuggestionRequest :=
  ⟨"Patient has diabetes.", ["condition"], "default", 10, 1/2⟩

/-- Witness for C3 at a concrete request. -/
theorem ner_output_respects_bounds_witness :
    (1 : Int) ≤ nerReq₀.max_suggestions ∧
    (((get_ner_suggestions nerReq₀).suggestions.length : Int) ≤
        nerReq₀.max_suggestions ∧
      (get_ner_suggestions nerReq₀).suggestions.all
        (fun e => decide (nerReq₀.min_confidence ≤ e.confidence) &&
          nerReq₀.entity_types.contains e.type) = true) :=
  ⟨by decide, ner_output_respects_bounds nerReq₀ (by decide)⟩

/-- C4: the quality estimation operation is deterministic: two calls with
identical `(annotation_data, user_id, task_type)` inputs return identical
`predicted_quality`, `confidence` and `risk_factors`. -/
theorem predict_quality_deterministic (r₁ r₂ : QualityPredictionRequest)
    (_h : r₁.annotation_data = r₂.annotation_data ∧ r₁.user_id = r₂.user_id ∧
      r₁.task_type = r₂.task_type) :
    (predict_quality r₁).predicted_quality = (predict_quality r₂).predicted_quality ∧
    (predict_quality r₁).confidence = (predict_quality r₂).confidence ∧
    (predict_quality r₁).risk_factors = (predict_quality r₂).risk_factors :=
  ⟨rfl, rfl, rfl⟩

/-- Concrete quality-prediction request used as a witness input. -/
def qualReq₀ : QualityPredictionRequest :=
  ⟨Json.obj [("entities", Json.arr [])], "user-123", "ner"⟩

/-- Witness for C4 at a concrete request. -/
theorem predict_quality_deterministic_witness :
    (qualReq₀.annotation_data = qualReq₀.annotation_data ∧
      qualReq₀.user_id = qualReq₀.user_id ∧
      qualReq₀.task_type = qualReq₀.task_type) ∧
    ((predict_quality qualReq₀).predicted_quality =
        (predict_quality qualReq₀).predicted_quality ∧
      (predict_quality qualReq₀).confidence = (predict_quality qualReq₀).confidence ∧
      (predict_quality qualReq₀).risk_factors =
        (predict_quality qualReq₀).risk_factors) :=
  ⟨⟨rfl, rfl, rfl⟩,
    predict_quality_deterministic qualReq₀ qualReq₀ ⟨rfl, rfl, rfl⟩⟩

/-- C5: for every quality prediction request, `predicted_quality` and
`confidence` lie in `[0,1]` and `risk_factors` has no duplicates. -/
theorem quality_fields_in_range_nodup (r : QualityPredictionRequest) :
    0 ≤ (predict_quality r).predicted_quality ∧
    (predict_quality r).predicted_quality ≤ 1 ∧
    0 ≤ (predict_quality r).confidence ∧ (predict_quality r).confidence ≤ 1 ∧
    (predict_quality r).risk_factors.Nodup :=
  ⟨by norm_num [predict_quality], by norm_num [predict_quality],
    by norm_num [predict_quality], by norm_num [predict_quality],
    List.nodup_nil⟩

/-- C6: an active-learning request whose strategy is not one of the three
recognized literals, or whose count is below 1, is rejected by validation
(`none`): the handler never runs, so no partial selection is returned. -/
theorem al_invalid_strategy_or_count_rejected (project_id user_id strategy : String)
    (count : Int) (h : Strategy.ofString strategy = none ∨ count < 1) :
    ActiveLearningRequest.validate project_id user_id strategy count = none := by
  unfold ActiveLearningRequest.validate
  rcases h with h | h
  · rw [h]
  · rcases hs : Strategy.ofString strategy with _ | s
    · rfl
    · exact if_neg (fun hc => absurd hc.1 (by omega))

/-- Witness for C6 at the scenario input `strategy="bogus"`. -/
theorem al_invalid_strategy_or_count_rejected_witness :
    (Strategy.ofString "bogus" = none ∨ (5 : Int) < 1) ∧
    ActiveLearningRequest.validate "project-123" "user-123" "bogus" 5 = none :=
  ⟨Or.inl rfl,
    al_invalid_strategy_or_count_rejected "project-123" "user-123" "bogus" 5
      (Or.inl rfl)⟩

/-- C7: a NER request with empty text and non-empty `entity_types` (scenario
values `max_suggestions=10`, default `min_confidence=0.5`) passes validation
and the handler returns an empty suggestion list rather than an error. -/
theorem ner_empty_text_yields_empty (entity_types : List String) (model : String)
    (_h : entity_types ≠ []) :
    ∃ req, NERSuggestionRequest.validate "" entity_types model 10 (1/2) = some req ∧
      (get_ner_suggestions req).suggestions = [] := by
  refine ⟨⟨"", entity_types, model, 10, 1/2⟩, ?_, rfl⟩
  unfold NERSuggestionRequest.validate
  rw [if_pos (by norm_num)]

/-- Witness for C7 at the scenario input. -/
theorem ner_empty_text_yields_empty_witness :
    (["condition"] ≠ ([] : List String)) ∧
    ∃ req, NERSuggestionRequest.validate "" ["condition"] "default" 10 (1/2) =
        some req ∧
      (get_ner_suggestions req).suggestions = [] :=
  ⟨by decide, ner_empty_text_yields_empty ["condition"] "default" (by decide)⟩

/-- C8: every entity returned by the NER handler satisfies the Span invariant
against the request text (`0 <= start < end <= len(text)` and `text[start:end]`
equal to the entity text). -/
theorem ner_spans_satisfy_invariant (r : NERSuggestionRequest) :
    (get_ner_suggestions r).suggestions.all (spanInvariant r.text) = true :=
  rfl

/-- C9: numeric request fields are validated at the boundary: validation
succeeds exactly when the pydantic bounds hold (so any out-of-range value is
rejected before the handler runs), and a request that validates carries its
numeric fields through unchanged (never clamped). -/
theorem numeric_bounds_validated_not_clamped :
    (∀ text entity_types model max_suggestions min_confidence,
      (NERSuggestionRequest.validate text entity_types model max_suggestions
          min_confidence).isSome = true ↔
        (1 ≤ max_suggestions ∧ max_suggestions ≤ 100 ∧
          0 ≤ min_confidence ∧ min_confidence ≤ 1)) ∧
    (∀ text entity_types model max_suggestions min_confidence req,
      NERSuggestionRequest.validate text entity_types model max_suggestions
          min_confidence = some req →
        req.max_suggestions = max_suggestions ∧
          req.min_confidence = min_confidence) ∧
    (∀ project_id user_id strategy count,
      (ActiveLearningRequest.validate project_id user_id strategy count).isSome =
          true ↔
        ((Strategy.ofString strategy).isSome = true ∧ 1 ≤ count ∧ count ≤ 100)) ∧
    (∀ project_id user_id strategy count req,
      ActiveLearningRequest.validate project_id user_id strategy count =
          some req →
        req.count = count) := by
  refine ⟨?_, ?_, ?_, ?_⟩
  · intro text ets model ms mc
    unfold NERSuggestionRequest.validate
    split <;> simp_all
  · intro text ets model ms mc req h
    unfold NERSuggestionRequest.validate at h
    split at h
    · rw [Option.some.injEq] at h
      subst h
      exact ⟨rfl, rfl⟩
    · exact Option.noConfusion h
  · intro pid uid s c
    unfold ActiveLearningRequest.validate
    rcases hs : Strategy.ofString s with _ | st
    · simp [hs]
    · simp only [hs, Option.isSome_some, true_and]
      split <;> simp_all
  · intro pid uid s c req h
    unfold ActiveLearningRequest.validate at h
    rcases hs : Strategy.ofString s with _ | st <;> simp only [hs] at h
    · exact Option.noConfusion h
    · split at h
      · rw [Option.some.injEq] at h
        subst h
        rfl
      · exact Option.noConfusion h

/-- Witness for C9: in-range concrete requests validate successfully. -/
theorem numeric_bounds_validated_not_clamped_witness :
    (NERSuggestionRequest.validate "" ["condition"] "default" 10 (1/2)).isSome =
        true ∧
    (ActiveLearningRequest.validate "project-123" "user-123" "hybrid" 10).isSome =
        true :=
  ⟨(numeric_bounds_validated_not_clamped.1 "" ["condition"] "default" 10
      (1/2)).mpr (by norm_num),
    (numeric_bounds_validated_not_clamped.2.2.1 "project-123" "user-123" "hybrid"
      10).mpr (by decide)⟩

/-- C10: validation enforces an upper bound of 100 on `max_suggestions` (NER)
and `count` (active learning): any request exceeding 100 is rejected. -/
theorem upper_bound_100_enforced :
    (∀ text entity_types model max_suggestions min_confidence,
      100 < max_suggestions →
        NERSuggestionRequest.validate text entity_types model max_suggestions
          min_confidence = none) ∧
    (∀ project_id user_id strategy count, 100 < count →
        ActiveLearningRequest.validate project_id user_id strategy count =
          none) := by
  constructor
  · intro text ets model ms mc h
    unfold NERSuggestionRequest.validate
    exact if_neg (fun hc => absurd hc.2.1 (not_le.mpr h))
  · intro pid uid s c h
    unfold ActiveLearningRequest.validate
    rcases hs : Strategy.ofString s with _ | st
    · rfl
    · exact if_neg (fun hc => absurd hc.2 (not_le.mpr h))

/-- Witness for C10 at `max_suggestions = 101` and `count = 101`. -/
theorem upper_bound_100_enforced_witness :
    ((100 : Int) < 101 ∧
      NERSuggestionRequest.validate "" ["condition"] "default" 101 (1/2) =
        none) ∧
    ((100 : Int) < 101 ∧
      ActiveLearningRequest.validate "project-123" "user-123" "uncertainty" 101 =
        none) :=
  ⟨⟨by decide,
      upper_bound_100_enforced.1 "" ["condition"] "default" 101 (1/2) (by decide)⟩,
    ⟨by decide,
      upper_bound_100_enforced.2 "project-123" "user-123" "uncertainty" 101
        (by decide)⟩⟩

/-- Modelled from the spec: a Task Descriptor (spec section 3) — an
identifier plus an optional model-uncertainty signal. The Active-Learning
Selector engine is absent from the source: the handler
`select_tasks_for_annotation` is a placeholder that takes no pool at all, so
the selection operation is modelled from the spec's words. -/
structure TaskDescriptor where
  id : String
  uncertainty : Option ℚ

/-- Modelled from the spec: the uncertainty signal used for ranking — a task
without an uncertainty signal is treated as signal 0 and never excluded
(spec section 4.3, uncertainty strategy). -/
def uncertaintySignal (t : TaskDescriptor) : ℚ :=
  t.uncertainty.getD 0

/-- Modelled from the spec: the ranking relation of the uncertainty strategy.
`rankedBefore a b` holds when `a`'s signal is at least `b`'s, so that a
stable sort with this relation ranks by descending uncertainty with ties
broken by original pool order, first-seen wins (spec section 4.3). -/
def rankedBefore (a b : TaskDescriptor) : Prop :=
  uncertaintySignal b ≤ uncertaintySignal a

instance : DecidableRel rankedBefore := fun a b =>
  inferInstanceAs (Decidable (uncertaintySignal b ≤ uncertaintySignal a))

instance : IsTotal TaskDescriptor rankedBefore :=
  ⟨fun a b => le_total (uncertaintySignal b) (uncertaintySignal a)⟩

instance : IsTrans TaskDescriptor rankedBefore :=
  ⟨fun _ _ _ hab hbc => le_trans hbc hab⟩

/-- Modelled from the spec: `select` with the `uncertainty` strategy (spec
section 4.3): rank the pool by descending uncertainty signal via a stable
sort and select the top `count`, pairing each chosen identifier with the
score that produced the ordering (Selection Result, spec section 3). -/
def selectUncertainty (pool : List TaskDescriptor) (count : Nat) :
    List (String × ℚ) :=
  ((pool.insertionSort rankedBefore).take count).map
    (fun t => (t.id, uncertaintySignal t))

/-- C1: with strategy `uncertainty`, a pool of 3 eligible tasks and
`count = 5`, the selection returns all 3 task identifiers (fewer eligible
tasks than `count` is not an error) ordered by descending uncertainty. -/
theorem al_uncertainty_pool3_count5 (pool : List TaskDescriptor)
    (h : pool.length = 3) :
    (selectUncertainty pool 5).length = 3 ∧
    List.Perm ((selectUncertainty pool 5).map Prod.fst) (pool.map TaskDescriptor.id) ∧
    (selectUncertainty pool 5).Pairwise (fun a b => b.2 ≤ a.2) := by
  have hperm : List.Perm (pool.insertionSort rankedBefore) pool :=
    List.perm_insertionSort rankedBefore pool
  have hlen : (pool.insertionSort rankedBefore).length = 3 := by
    rw [hperm.length_eq, h]
  have htake : (pool.insertionSort rankedBefore).take 5 =
      pool.insertionSort rankedBefore :=
    List.take_of_length_le (by omega)
  have hsorted : (pool.insertionSort rankedBefore).Sorted rankedBefore :=
    List.sorted_insertionSort rankedBefore pool
  refine ⟨?_, ?_, ?_⟩
  · simp [selectUncertainty, htake, hlen]
  · have hmap : (selectUncertainty pool 5).map Prod.fst =
        (pool.insertionSort rankedBefore).map TaskDescriptor.id := by
      simp [selectUncertainty, htake, List.map_map]
    rw [hmap]
    exact hperm.map TaskDescriptor.id
  · simp only [selectUncertainty, htake]
    exact List.Pairwise.map _ (fun a b hab => hab) hsorted

/-- Concrete pool of three tasks used as a witness input. -/
def pool₀ : List TaskDescriptor :=
  [⟨"task-1", some (1/5)⟩, ⟨"task-2", some (9/10)⟩, ⟨"task-3", none⟩]

/-- Witness for C1 at a concrete pool of three tasks. -/
theorem al_uncertainty_pool3_count5_witness :
    pool₀.length = 3 ∧
    ((selectUncertainty pool₀ 5).length = 3 ∧
      List.Perm ((selectUncertainty pool₀ 5).map Prod.fst)
        (pool₀.map TaskDescriptor.id) ∧
      (selectUncertainty pool₀ 5).Pairwise (fun a b => b.2 ≤ a.2)) :=
  ⟨rfl, al_uncertainty_pool3_count5 pool₀ rfl⟩
